import Mathlib

/-!
CatalogSource status conditions, endpoint resolution and subscription approval.

A shallow embedding of `pkg/api/apis/operators/v1alpha1/catalogsource_types.go` and of
`pkg/api/apis/subscription/v1alpha1/types.go`.

Modelling conventions:

* Go strings (and the string-kinded types `SourceType`, `CatalogSourceConditionType`,
  `CatalogSourceConditionReason`, `corev1.ConditionStatus`, `types.UID`) are Lean strings;
  `==` / `!=` on them is decidable equality.
* `metav1.Time` is an instant on an integer time line; the zero value of the Go type is
  `zeroTime`.
* A Go pointer that may be nil is an `Option`; dereferencing nil is the error
  `GoPanic.nilDereference`.
* Methods with a pointer receiver that mutate the receiver return the new receiver state
  next to their Go result.
* The package-level clock `now()` is not part of the file; its reading at the call is the
  explicit parameter `now`.
* `metav1.TypeMeta`, `metav1.ObjectMeta` and the `Icon` field are carried by no function
  modelled here and are left out of the records.
-/

namespace OLM

/-! ## Data model -/

/-- An instant, standing for `metav1.Time`. -/
abbrev Time := Int

/-- The zero value of `metav1.Time`. -/
def zeroTime : Time := 0

/-- Run-time failures of the Go code. -/
inductive GoPanic where
  | nilDereference
  deriving DecidableEq, Repr

/-- Stands for `corev1.ConditionStatus`. -/
abbrev ConditionStatus := String

/-- Stands for `corev1.ConditionTrue`. -/
def ConditionTrue : ConditionStatus := "True"

/-- Stands for `corev1.ConditionFalse`. -/
def ConditionFalse : ConditionStatus := "False"

/-- Stands for `corev1.ConditionUnknown`. -/
def ConditionUnknown : ConditionStatus := "Unknown"

/-- SourceType indicates the type of backing store for a CatalogSource. -/
abbrev SourceType := String

def SourceTypeGrpc : SourceType := "grpc"

structure CatalogSourceSpec where
  SourceType : SourceType
  ConfigMap : String
  Address : String
  Image : String
  Secrets : List String
  DisplayName : String
  Description : String
  Publisher : String
  deriving DecidableEq, Repr

structure RegistryServiceStatus where
  Protocol : String
  ServiceName : String
  ServiceNamespace : String
  Port : String
  CreatedAt : Time
  deriving DecidableEq, Repr

abbrev CatalogSourceConditionType := String

abbrev CatalogSourceConditionReason := String

def CatalogSourceReasonInvalidType : CatalogSourceConditionReason := "InvalidSourceType"

/-- The field `Type` of the Go struct is spelled `Type_` (a reserved word in Lean). -/
structure CatalogSourceCondition where
  Type_ : CatalogSourceConditionType
  Status : ConditionStatus
  LastUpdateTime : Time
  LastTransitionTime : Time
  Reason : CatalogSourceConditionReason
  Message : String
  deriving DecidableEq, Repr

structure ConfigMapResourceReference where
  Name : String
  Namespace : String
  UID : String
  ResourceVersion : String
  deriving DecidableEq, Repr

structure CatalogSourceStatus where
  ConfigMapResource : Option ConfigMapResourceReference
  RegistryServiceStatus : Option RegistryServiceStatus
  Conditions : List CatalogSourceCondition
  LastSync : Time
  deriving DecidableEq, Repr

structure CatalogSource where
  Spec : CatalogSourceSpec
  Status : CatalogSourceStatus
  deriving DecidableEq, Repr

/-- A Go `error` value: `none` is the nil error, `some msg` an error whose `Error()`
method returns `msg`. -/
abbrev GoError := Option String

/-! ## Operations -/

/-- The body of `func (s *RegistryServiceStatus) Address() string` once the receiver has
been dereferenced: `fmt.Sprintf("%s.%s.svc.cluster.local:%s", ...)` on three strings. -/
def RegistryServiceStatus.Address (s : RegistryServiceStatus) : String :=
  s.ServiceName ++ "." ++ s.ServiceNamespace ++ ".svc.cluster.local:" ++ s.Port

/-- The method `(*RegistryServiceStatus).Address` on a receiver that may be nil: reading
the fields of a nil receiver panics. -/
def RegistryServiceStatus.AddressOfPtr :
    Option RegistryServiceStatus → Except GoPanic String
  | none => Except.error GoPanic.nilDereference
  | some s => Except.ok s.Address

/-- The `for i, existing := range s.Conditions` loop of `SetCondition`, run on the
condition `cond` whose two timestamps have already been set. `none` means the loop ran to
its end without returning; `some (conds, c)` means it stored `c` at the first index whose
entry has the Type of `cond` and returned `c`. -/
def SetConditionLoop (cond : CatalogSourceCondition) :
    List CatalogSourceCondition →
      Option (List CatalogSourceCondition × CatalogSourceCondition)
  | [] => none
  | existing :: rest =>
    if existing.Type_ ≠ cond.Type_ then
      (SetConditionLoop cond rest).map fun r => (existing :: r.1, r.2)
    else
      let cond1 :=
        if existing.Status = cond.Status then
          { cond with LastTransitionTime := existing.LastTransitionTime }
        else cond
      some (cond1 :: rest, cond1)

/-- SetCondition adds or updates a condition, using `Type` as merge key. Returns the
status after the call and the condition the Go method returns. -/
def CatalogSourceStatus.SetCondition (now : Time) (s : CatalogSourceStatus)
    (cond : CatalogSourceCondition) : CatalogSourceStatus × CatalogSourceCondition :=
  let updated := now
  let cond := { cond with LastUpdateTime := updated, LastTransitionTime := updated }
  match SetConditionLoop cond s.Conditions with
  | some (conds, c) => ({ s with Conditions := conds }, c)
  | none => ({ s with Conditions := s.Conditions ++ [cond] }, cond)

/-- CatalogSourceConditionFailed: `err.Error()` on the nil error panics. -/
def CatalogSourceConditionFailed (cond : CatalogSourceConditionType)
    (reason : CatalogSourceConditionReason) (err : GoError) :
    Except GoPanic CatalogSourceCondition :=
  match err with
  | none => Except.error GoPanic.nilDereference
  | some msg =>
    Except.ok
      { Type_ := cond
        Status := ConditionFalse
        LastUpdateTime := zeroTime
        LastTransitionTime := zeroTime
        Reason := reason
        Message := msg }

def CatalogSourceConditionMet (cond : CatalogSourceConditionType) : CatalogSourceCondition :=
  { Type_ := cond
    Status := ConditionTrue
    LastUpdateTime := zeroTime
    LastTransitionTime := zeroTime
    Reason := ""
    Message := "" }

/-- The method `func (c *CatalogSource) Address() string`. -/
def CatalogSource.Address (c : CatalogSource) : Except GoPanic String :=
  if c.Spec.Address ≠ "" then
    Except.ok c.Spec.Address
  else
    RegistryServiceStatus.AddressOfPtr c.Status.RegistryServiceStatus

/-- The transition time recorded for a condition type: that of the first entry of the
type, the entry `SetCondition` merges into. -/
def transitionTimeOf (t : CatalogSourceConditionType) (conds : List CatalogSourceCondition) :
    Option Time :=
  (conds.find? fun e => decide (e.Type_ = t)).map fun e => e.LastTransitionTime

/-- The condition `cond` with its update time set to `now` and its transition time set
to `tt`: the shape of every value `SetCondition` stores. -/
def stamped (now tt : Time) (cond : CatalogSourceCondition) : CatalogSourceCondition :=
  { Type_ := cond.Type_, Status := cond.Status, LastUpdateTime := now,
    LastTransitionTime := tt, Reason := cond.Reason, Message := cond.Message }

/-- The Types of a condition list, in order. -/
def conditionTypes (conds : List CatalogSourceCondition) : List CatalogSourceConditionType :=
  conds.map fun e => e.Type_

/-- A run of `SetCondition` calls, each with the clock reading at the call and the
condition passed, applied one after the other to a status. -/
def applyConditions (s : CatalogSourceStatus) (calls : List (Time × CatalogSourceCondition)) :
    CatalogSourceStatus :=
  calls.foldl (fun st call => (st.SetCondition call.1 call.2).1) s

/-! ## Subscriptions

The embedding of `pkg/api/apis/subscription/v1alpha1/types.go`. The type `Approval` and its
constants `ApprovalManual` and `ApprovalAutomatic` are declared in the install-plan
package, outside the files at hand: `Approval` is a string kind, and the two constants are
parameters of `GetInstallPlanApproval`. -/

/-- Stands for the install-plan package's `Approval`. -/
abbrev Approval := String

/-- SubscriptionState tracks when updates are available, installing, or service is up to
date. -/
abbrev SubscriptionState := String

def SubscriptionStateNone : SubscriptionState := ""

def SubscriptionStateUpgradeAvailable : SubscriptionState := "UpgradeAvailable"

def SubscriptionStateUpgradePending : SubscriptionState := "UpgradePending"

def SubscriptionStateAtLatest : SubscriptionState := "AtLatestKnown"

/-- SubscriptionSpec defines an Application that can be installed. -/
structure SubscriptionSpec where
  CatalogSource : String
  Package : String
  Channel : String
  StartingCSV : String
  InstallPlanApproval : Approval
  deriving DecidableEq, Repr

structure InstallPlanReference where
  APIVersion : String
  Kind : String
  Name : String
  UID : String
  deriving DecidableEq, Repr

structure SubscriptionStatus where
  CurrentCSV : String
  Install : Option InstallPlanReference
  State : SubscriptionState
  LastUpdated : Time
  deriving DecidableEq, Repr

/-- The field `Spec` is a pointer in the Go struct. -/
structure Subscription where
  Spec : Option SubscriptionSpec
  Status : SubscriptionStatus
  deriving DecidableEq, Repr

/-- GetInstallPlanApproval gets the configured install plan approval or the default.
Reading `s.Spec.InstallPlanApproval` through a nil `Spec` panics. -/
def Subscription.GetInstallPlanApproval (ApprovalManual ApprovalAutomatic : Approval)
    (s : Subscription) : Except GoPanic Approval :=
  match s.Spec with
  | none => Except.error GoPanic.nilDereference
  | some spec =>
    if spec.InstallPlanApproval = ApprovalManual then
      Except.ok ApprovalManual
    else
      Except.ok ApprovalAutomatic

/-! ## Catalog health reconciliation -/

/-- The identity and revision of a `corev1.ConfigMap`, with its data. -/
structure ConfigMap where
  Name : String
  Namespace : String
  UID : String
  ResourceVersion : String
  Data : List (String × String)
  deriving DecidableEq, Repr

theorem SetConditionLoop_absent (cond : CatalogSourceCondition)
    (conds : List CatalogSourceCondition) (h : ∀ e ∈ conds, e.Type_ ≠ cond.Type_) :
    SetConditionLoop cond conds = none := by
  induction conds with
  | nil => rfl
  | cons e rest ih =>
    have he : e.Type_ ≠ cond.Type_ := h e (List.mem_cons_self _ _)
    have hr : ∀ x ∈ rest, x.Type_ ≠ cond.Type_ := fun x hx => h x (List.mem_cons_of_mem _ hx)
    simp [SetConditionLoop, he, ih hr]

theorem SetConditionLoop_first (cond e : CatalogSourceCondition)
    (pre post : List CatalogSourceCondition) (hpre : ∀ x ∈ pre, x.Type_ ≠ cond.Type_)
    (he : e.Type_ = cond.Type_) :
    SetConditionLoop cond (pre ++ e :: post) =
      some (pre ++ (if e.Status = cond.Status then
                      { cond with LastTransitionTime := e.LastTransitionTime }
                    else cond) :: post,
            if e.Status = cond.Status then
              { cond with LastTransitionTime := e.LastTransitionTime }
            else cond) := by
  induction pre with
  | nil => simp [SetConditionLoop, he]
  | cons p rest ih =>
    have hp : p.Type_ ≠ cond.Type_ := hpre p (List.mem_cons_self _ _)
    have hr : ∀ x ∈ rest, x.Type_ ≠ cond.Type_ :=
      fun x hx => hpre x (List.mem_cons_of_mem _ hx)
    simp [SetConditionLoop, hp, ih hr]

theorem SetCondition_of_first (now : Time) (s : CatalogSourceStatus)
    (cond e : CatalogSourceCondition) (pre post : List CatalogSourceCondition)
    (hs : s.Conditions = pre ++ e :: post)
    (hpre : ∀ x ∈ pre, x.Type_ ≠ cond.Type_) (hty : e.Type_ = cond.Type_) :
    s.SetCondition now cond =
      ({ s with Conditions :=
          pre ++ (stamped now (if e.Status = cond.Status then e.LastTransitionTime else now)
            cond) :: post },
       stamped now (if e.Status = cond.Status then e.LastTransitionTime else now) cond) := by
  have hloop := SetConditionLoop_first
    { cond with LastUpdateTime := now, LastTransitionTime := now } e pre post hpre hty
  unfold CatalogSourceStatus.SetCondition
  simp only [hs, hloop]
  by_cases hst : e.Status = cond.Status <;> simp [hst, stamped]

theorem SetCondition_of_absent (now : Time) (s : CatalogSourceStatus)
    (cond : CatalogSourceCondition) (h : ∀ x ∈ s.Conditions, x.Type_ ≠ cond.Type_) :
    s.SetCondition now cond =
      ({ s with Conditions := s.Conditions ++ [stamped now now cond] },
       stamped now now cond) := by
  have hloop := SetConditionLoop_absent
    { cond with LastUpdateTime := now, LastTransitionTime := now } s.Conditions h
  unfold CatalogSourceStatus.SetCondition
  simp only [hloop]
  rfl

theorem first_entry_or_absent (t : CatalogSourceConditionType)
    (conds : List CatalogSourceCondition) :
    (∀ x ∈ conds, x.Type_ ≠ t) ∨
      ∃ pre e post, conds = pre ++ e :: post ∧ (∀ x ∈ pre, x.Type_ ≠ t) ∧ e.Type_ = t := by
  induction conds with
  | nil => exact Or.inl (by simp)
  | cons a rest ih =>
    by_cases ha : a.Type_ = t
    · exact Or.inr ⟨[], a, rest, rfl, by simp, ha⟩
    · rcases ih with hall | ⟨pre, e, post, hsplit, hpre, he⟩
      · refine Or.inl ?_
        intro x hx
        rcases List.mem_cons.mp hx with rfl | hx
        · exact ha
        · exact hall x hx
      · refine Or.inr ⟨a :: pre, e, post, by simp [hsplit], ?_, he⟩
        intro x hx
        rcases List.mem_cons.mp hx with rfl | hx
        · exact ha
        · exact hpre x hx

theorem transitionTimeOf_first (t : CatalogSourceConditionType) (e : CatalogSourceCondition)
    (pre post : List CatalogSourceCondition) (hpre : ∀ x ∈ pre, x.Type_ ≠ t)
    (he : e.Type_ = t) :
    transitionTimeOf t (pre ++ e :: post) = some e.LastTransitionTime := by
  induction pre with
  | nil => simp [transitionTimeOf, he]
  | cons p rest ih =>
    have hp : p.Type_ ≠ t := hpre p (List.mem_cons_self _ _)
    have hr : ∀ x ∈ rest, x.Type_ ≠ t := fun x hx => hpre x (List.mem_cons_of_mem _ hx)
    have hrec := ih hr
    unfold transitionTimeOf at hrec ⊢
    rw [List.cons_append, List.find?_cons_of_neg _ (by simpa using hp)]
    exact hrec

theorem SetCondition_shape (now : Time) (s : CatalogSourceStatus)
    (cond : CatalogSourceCondition) :
    ∃ pre post tt, (∀ x ∈ pre, x.Type_ ≠ cond.Type_) ∧
      s.SetCondition now cond =
        ({ s with Conditions := pre ++ stamped now tt cond :: post }, stamped now tt cond) := by
  rcases first_entry_or_absent cond.Type_ s.Conditions with hall | ⟨pre, e, post, hs, hpre, he⟩
  · refine ⟨s.Conditions, [], now, hall, ?_⟩
    rw [SetCondition_of_absent now s cond hall]
  · exact ⟨pre, post, _, hpre, SetCondition_of_first now s cond e pre post hs hpre he⟩

theorem getElem?_replace_elsewhere (pre post : List CatalogSourceCondition)
    (a b : CatalogSourceCondition) (i : Nat) (h : i ≠ pre.length) :
    (pre ++ b :: post)[i]? = (pre ++ a :: post)[i]? := by
  induction pre generalizing i with
  | nil =>
    cases i with
    | zero => exact absurd rfl h
    | succ k => simp
  | cons p rest ih =>
    cases i with
    | zero => simp
    | succ k =>
      have hk : k ≠ rest.length := fun hk => h (by simp [hk])
      simpa using ih k hk

theorem getElem?_first_entry (pre post : List CatalogSourceCondition)
    (a : CatalogSourceCondition) : (pre ++ a :: post)[pre.length]? = some a := by
  induction pre with
  | nil => simp
  | cons p rest ih => simpa using ih

theorem conditionTypes_SetCondition (now : Time) (s : CatalogSourceStatus)
    (cond : CatalogSourceCondition) :
    ((∀ x ∈ s.Conditions, x.Type_ ≠ cond.Type_) ∧
        conditionTypes (s.SetCondition now cond).1.Conditions =
          conditionTypes s.Conditions ++ [cond.Type_]) ∨
      (cond.Type_ ∈ conditionTypes s.Conditions ∧
        conditionTypes (s.SetCondition now cond).1.Conditions =
          conditionTypes s.Conditions) := by
  rcases first_entry_or_absent cond.Type_ s.Conditions with
    hall | ⟨pre, e0, post, hs, hpre, he0⟩
  · refine Or.inl ⟨hall, ?_⟩
    rw [SetCondition_of_absent now s cond hall]
    simp [conditionTypes, stamped]
  · refine Or.inr ⟨?_, ?_⟩
    · rw [hs]
      simp [conditionTypes]
      exact Or.inr (Or.inl he0.symm)
    · rw [SetCondition_of_first now s cond e0 pre post hs hpre he0, hs]
      simp [conditionTypes, stamped, he0]

theorem SetCondition_nodup_types (now : Time) (s : CatalogSourceStatus)
    (cond : CatalogSourceCondition) (h : (conditionTypes s.Conditions).Nodup) :
    (conditionTypes (s.SetCondition now cond).1.Conditions).Nodup := by
  rcases conditionTypes_SetCondition now s cond with ⟨hall, htypes⟩ | ⟨_, htypes⟩
  · rw [htypes]
    refine List.Nodup.append h (List.nodup_singleton _) ?_
    intro t ht hsingle
    obtain ⟨x, hx, hxt⟩ := List.mem_map.mp ht
    rw [List.mem_singleton] at hsingle
    exact hall x hx (hxt.trans hsingle)
  · rw [htypes]
    exact h

theorem SetCondition_mem_types (now : Time) (s : CatalogSourceStatus)
    (cond : CatalogSourceCondition) :
    cond.Type_ ∈ conditionTypes (s.SetCondition now cond).1.Conditions := by
  rcases conditionTypes_SetCondition now s cond with ⟨_, htypes⟩ | ⟨hmem, htypes⟩
  · rw [htypes]
    simp
  · rw [htypes]
    exact hmem

theorem applyConditions_nodup_types (calls : List (Time × CatalogSourceCondition))
    (s : CatalogSourceStatus) (h : (conditionTypes s.Conditions).Nodup) :
    (conditionTypes (applyConditions s calls).Conditions).Nodup := by
  induction calls generalizing s with
  | nil => exact h
  | cons call rest ih =>
    exact ih (s.SetCondition call.1 call.2).1 (SetCondition_nodup_types call.1 s call.2 h)

/-! ## SetCondition -/

/-- C1: when the first entry with the new condition's Type has the same Status,
SetCondition called at clock reading `now` replaces exactly that entry by one that keeps
the old entry's LastTransitionTime, has LastUpdateTime `now` and the Type, Status, Reason
and Message of the new condition; the returned condition is the stored entry. -/
theorem SetCondition_same_status (now : Time) (s : CatalogSourceStatus)
    (cond e : CatalogSourceCondition) (pre post : List CatalogSourceCondition)
    (hs : s.Conditions = pre ++ e :: post)
    (hpre : ∀ x ∈ pre, x.Type_ ≠ cond.Type_)
    (hty : e.Type_ = cond.Type_) (hst : e.Status = cond.Status) :
    s.SetCondition now cond =
      ({ s with Conditions :=
          pre ++ { Type_ := cond.Type_, Status := cond.Status, LastUpdateTime := now,
                   LastTransitionTime := e.LastTransitionTime, Reason := cond.Reason,
                   Message := cond.Message } :: post },
       { Type_ := cond.Type_, Status := cond.Status, LastUpdateTime := now,
         LastTransitionTime := e.LastTransitionTime, Reason := cond.Reason,
         Message := cond.Message }) := by
  rw [SetCondition_of_first now s cond e pre post hs hpre hty]
  simp [hst, stamped]

theorem SetCondition_same_status_witness :
    CatalogSourceStatus.SetCondition 200
        { ConfigMapResource := none, RegistryServiceStatus := none,
          Conditions := [⟨"Synced", "True", 10, 10, "", ""⟩,
                         ⟨"Available", "True", 50, 40, "RegistryHealthy", "up"⟩],
          LastSync := 0 }
        ⟨"Available", "True", 0, 0, "RegistryHealthy", "still up"⟩ =
      ({ ConfigMapResource := none, RegistryServiceStatus := none,
         Conditions := [⟨"Synced", "True", 10, 10, "", ""⟩,
                        ⟨"Available", "True", 200, 40, "RegistryHealthy", "still up"⟩],
         LastSync := 0 },
       ⟨"Available", "True", 200, 40, "RegistryHealthy", "still up"⟩) :=
  SetCondition_same_status 200 _ ⟨"Available", "True", 0, 0, "RegistryHealthy", "still up"⟩
    ⟨"Available", "True", 50, 40, "RegistryHealthy", "up"⟩
    [⟨"Synced", "True", 10, 10, "", ""⟩] [] rfl (by decide) rfl rfl

/-- C2: when the first entry with the new condition's Type has a different Status,
SetCondition called at clock reading `now` stores in that entry's place, and returns, the
new condition with LastUpdateTime and LastTransitionTime both equal to `now`. -/
theorem SetCondition_changed_status (now : Time) (s : CatalogSourceStatus)
    (cond e : CatalogSourceCondition) (pre post : List CatalogSourceCondition)
    (hs : s.Conditions = pre ++ e :: post)
    (hpre : ∀ x ∈ pre, x.Type_ ≠ cond.Type_)
    (hty : e.Type_ = cond.Type_) (hst : e.Status ≠ cond.Status) :
    s.SetCondition now cond =
      ({ s with Conditions :=
          pre ++ { Type_ := cond.Type_, Status := cond.Status, LastUpdateTime := now,
                   LastTransitionTime := now, Reason := cond.Reason,
                   Message := cond.Message } :: post },
       { Type_ := cond.Type_, Status := cond.Status, LastUpdateTime := now,
         LastTransitionTime := now, Reason := cond.Reason, Message := cond.Message }) := by
  rw [SetCondition_of_first now s cond e pre post hs hpre hty]
  simp [hst, stamped]

theorem SetCondition_changed_status_witness :
    CatalogSourceStatus.SetCondition 200
        { ConfigMapResource := none, RegistryServiceStatus := none,
          Conditions := [⟨"Synced", "True", 10, 10, "", ""⟩,
                         ⟨"Available", "True", 50, 40, "RegistryHealthy", "up"⟩],
          LastSync := 0 }
        ⟨"Available", "False", 0, 0, "ConfigMapNotFound", "gone"⟩ =
      ({ ConfigMapResource := none, RegistryServiceStatus := none,
         Conditions := [⟨"Synced", "True", 10, 10, "", ""⟩,
                        ⟨"Available", "False", 200, 200, "ConfigMapNotFound", "gone"⟩],
         LastSync := 0 },
       ⟨"Available", "False", 200, 200, "ConfigMapNotFound", "gone"⟩) :=
  SetCondition_changed_status 200 _ ⟨"Available", "False", 0, 0, "ConfigMapNotFound", "gone"⟩
    ⟨"Available", "True", 50, 40, "RegistryHealthy", "up"⟩
    [⟨"Synced", "True", 10, 10, "", ""⟩] [] rfl (by decide) rfl (by decide)

/-- C3: when no entry has the new condition's Type (the empty list included),
SetCondition called at clock reading `now` appends exactly one entry at the end of the
list; the entry has LastUpdateTime = LastTransitionTime = `now` and the Type, Status,
Reason and Message of the new condition, and it is the value returned. -/
theorem SetCondition_appends_when_absent (now : Time) (s : CatalogSourceStatus)
    (cond : CatalogSourceCondition) (h : ∀ x ∈ s.Conditions, x.Type_ ≠ cond.Type_) :
    s.SetCondition now cond =
      ({ s with Conditions :=
          s.Conditions ++
            [{ Type_ := cond.Type_, Status := cond.Status, LastUpdateTime := now,
               LastTransitionTime := now, Reason := cond.Reason,
               Message := cond.Message }] },
       { Type_ := cond.Type_, Status := cond.Status, LastUpdateTime := now,
         LastTransitionTime := now, Reason := cond.Reason, Message := cond.Message }) := by
  rw [SetCondition_of_absent now s cond h]
  rfl

theorem SetCondition_appends_when_absent_witness :
    CatalogSourceStatus.SetCondition 200
        { ConfigMapResource := none, RegistryServiceStatus := none,
          Conditions := [⟨"Synced", "True", 10, 10, "", ""⟩], LastSync := 0 }
        ⟨"Available", "True", 7, 3, "RegistryHealthy", "up"⟩ =
      ({ ConfigMapResource := none, RegistryServiceStatus := none,
         Conditions := [⟨"Synced", "True", 10, 10, "", ""⟩,
                        ⟨"Available", "True", 200, 200, "RegistryHealthy", "up"⟩],
         LastSync := 0 },
       ⟨"Available", "True", 200, 200, "RegistryHealthy", "up"⟩) :=
  SetCondition_appends_when_absent 200 _ ⟨"Available", "True", 7, 3, "RegistryHealthy", "up"⟩
    (by decide)

/-- C4: applying SetCondition with `c` at `t1` and then again, at `t2`, with a condition
of the same Type and Status (`c` itself included) leaves the transition time recorded for
that Type where the first call put it: the recorded time after both calls equals the
recorded time after the first call alone, it is the transition time the first call
returned, and the second call returns that same transition time. -/
theorem SetCondition_twice_same_transition_time (s : CatalogSourceStatus)
    (c c2 : CatalogSourceCondition) (t1 t2 : Time)
    (hty : c2.Type_ = c.Type_) (hst : c2.Status = c.Status) :
    transitionTimeOf c.Type_ ((s.SetCondition t1 c).1.SetCondition t2 c2).1.Conditions =
        transitionTimeOf c.Type_ (s.SetCondition t1 c).1.Conditions ∧
      transitionTimeOf c.Type_ (s.SetCondition t1 c).1.Conditions =
        some (s.SetCondition t1 c).2.LastTransitionTime ∧
      ((s.SetCondition t1 c).1.SetCondition t2 c2).2.LastTransitionTime =
        (s.SetCondition t1 c).2.LastTransitionTime := by
  obtain ⟨pre, post, tt, hpre, h1⟩ := SetCondition_shape t1 s c
  have hpre2 : ∀ x ∈ pre, x.Type_ ≠ c2.Type_ := by
    intro x hx
    rw [hty]
    exact hpre x hx
  have h2 := SetCondition_of_first t2 (s.SetCondition t1 c).1 c2 (stamped t1 tt c) pre post
    (by rw [h1]) hpre2 (by simp [stamped, hty])
  have hsame : (stamped t1 tt c).Status = c2.Status := by simp [stamped, hst]
  rw [if_pos hsame] at h2
  have hrec1 := transitionTimeOf_first c.Type_ (stamped t1 tt c) pre post hpre rfl
  have hrec2 := transitionTimeOf_first c.Type_
    (stamped t2 (stamped t1 tt c).LastTransitionTime c2) pre post hpre
    (by simp [stamped, hty])
  rw [h2]
  rw [h1]
  exact ⟨by rw [hrec2, hrec1]; rfl, hrec1, rfl⟩

theorem SetCondition_twice_same_transition_time_witness :
    transitionTimeOf "Available"
        ((CatalogSourceStatus.SetCondition 100 ⟨none, none, [], 0⟩
            ⟨"Available", "True", 0, 0, "RegistryHealthy", "up"⟩).1.SetCondition 250
          ⟨"Available", "True", 0, 0, "RegistryHealthy", "still up"⟩).1.Conditions =
        transitionTimeOf "Available"
          (CatalogSourceStatus.SetCondition 100 ⟨none, none, [], 0⟩
            ⟨"Available", "True", 0, 0, "RegistryHealthy", "up"⟩).1.Conditions ∧
      transitionTimeOf "Available"
          (CatalogSourceStatus.SetCondition 100 ⟨none, none, [], 0⟩
            ⟨"Available", "True", 0, 0, "RegistryHealthy", "up"⟩).1.Conditions =
        some (CatalogSourceStatus.SetCondition 100 ⟨none, none, [], 0⟩
            ⟨"Available", "True", 0, 0, "RegistryHealthy", "up"⟩).2.LastTransitionTime ∧
      ((CatalogSourceStatus.SetCondition 100 ⟨none, none, [], 0⟩
            ⟨"Available", "True", 0, 0, "RegistryHealthy", "up"⟩).1.SetCondition 250
          ⟨"Available", "True", 0, 0, "RegistryHealthy", "still up"⟩).2.LastTransitionTime =
        (CatalogSourceStatus.SetCondition 100 ⟨none, none, [], 0⟩
            ⟨"Available", "True", 0, 0, "RegistryHealthy", "up"⟩).2.LastTransitionTime :=
  SetCondition_twice_same_transition_time ⟨none, none, [], 0⟩
    ⟨"Available", "True", 0, 0, "RegistryHealthy", "up"⟩
    ⟨"Available", "True", 0, 0, "RegistryHealthy", "still up"⟩ 100 250 rfl rfl

/-- C5, as stated, fails: a status change applied while the clock reads the instant
already recorded as the entry's transition time (here 100) stores transition time 100
again, so no entry of the Type has a strictly later transition time than before. -/
theorem SetCondition_changed_status_same_instant :
    (⟨"Available", "True", 100, 100, "RegistryHealthy", "up"⟩ : CatalogSourceCondition) ∈
        [(⟨"Available", "True", 100, 100, "RegistryHealthy", "up"⟩ : CatalogSourceCondition)] ∧
      (⟨"Available", "True", 100, 100, "RegistryHealthy", "up"⟩ : CatalogSourceCondition).Status ≠
        (⟨"Available", "False", 0, 0, "ConfigMapNotFound", "gone"⟩ :
          CatalogSourceCondition).Status ∧
      (CatalogSourceStatus.SetCondition 100
          ⟨none, none, [⟨"Available", "True", 100, 100, "RegistryHealthy", "up"⟩], 0⟩
          ⟨"Available", "False", 0, 0, "ConfigMapNotFound", "gone"⟩).1.Conditions =
        [⟨"Available", "False", 100, 100, "ConfigMapNotFound", "gone"⟩] ∧
      ¬ ∃ r ∈ (CatalogSourceStatus.SetCondition 100
          ⟨none, none, [⟨"Available", "True", 100, 100, "RegistryHealthy", "up"⟩], 0⟩
          ⟨"Available", "False", 0, 0, "ConfigMapNotFound", "gone"⟩).1.Conditions,
        r.Type_ = "Available" ∧
          (⟨"Available", "True", 100, 100, "RegistryHealthy", "up"⟩ :
            CatalogSourceCondition).LastTransitionTime < r.LastTransitionTime := by
  decide

/-- C5, amended: when the first entry of the new condition's Type has a different Status
and the clock reading `now` at the call is strictly later than that entry's
LastTransitionTime, SetCondition puts in that entry's place an entry of the same Type
whose LastTransitionTime is `now`, strictly later than the one the entry had before. -/
theorem SetCondition_changed_status_advances (now : Time) (s : CatalogSourceStatus)
    (cond e : CatalogSourceCondition) (pre post : List CatalogSourceCondition)
    (hs : s.Conditions = pre ++ e :: post)
    (hpre : ∀ x ∈ pre, x.Type_ ≠ cond.Type_)
    (hty : e.Type_ = cond.Type_) (hst : e.Status ≠ cond.Status)
    (hclock : e.LastTransitionTime < now) :
    (s.SetCondition now cond).1.Conditions = pre ++ (s.SetCondition now cond).2 :: post ∧
      (s.SetCondition now cond).2.Type_ = e.Type_ ∧
      (s.SetCondition now cond).2.LastTransitionTime = now ∧
      e.LastTransitionTime < (s.SetCondition now cond).2.LastTransitionTime := by
  rw [SetCondition_of_first now s cond e pre post hs hpre hty, if_neg hst]
  exact ⟨rfl, hty.symm, rfl, hclock⟩

theorem SetCondition_changed_status_advances_witness :
    (CatalogSourceStatus.SetCondition 101
          ⟨none, none, [⟨"Available", "True", 100, 100, "RegistryHealthy", "up"⟩], 0⟩
          ⟨"Available", "False", 0, 0, "ConfigMapNotFound", "gone"⟩).1.Conditions =
        [] ++ (CatalogSourceStatus.SetCondition 101
          ⟨none, none, [⟨"Available", "True", 100, 100, "RegistryHealthy", "up"⟩], 0⟩
          ⟨"Available", "False", 0, 0, "ConfigMapNotFound", "gone"⟩).2 :: [] ∧
      (CatalogSourceStatus.SetCondition 101
          ⟨none, none, [⟨"Available", "True", 100, 100, "RegistryHealthy", "up"⟩], 0⟩
          ⟨"Available", "False", 0, 0, "ConfigMapNotFound", "gone"⟩).2.Type_ =
        (⟨"Available", "True", 100, 100, "RegistryHealthy", "up"⟩ :
          CatalogSourceCondition).Type_ ∧
      (CatalogSourceStatus.SetCondition 101
          ⟨none, none, [⟨"Available", "True", 100, 100, "RegistryHealthy", "up"⟩], 0⟩
          ⟨"Available", "False", 0, 0, "ConfigMapNotFound", "gone"⟩).2.LastTransitionTime =
        101 ∧
      (⟨"Available", "True", 100, 100, "RegistryHealthy", "up"⟩ :
          CatalogSourceCondition).LastTransitionTime <
        (CatalogSourceStatus.SetCondition 101
          ⟨none, none, [⟨"Available", "True", 100, 100, "RegistryHealthy", "up"⟩], 0⟩
          ⟨"Available", "False", 0, 0, "ConfigMapNotFound", "gone"⟩).2.LastTransitionTime :=
  SetCondition_changed_status_advances 101
    ⟨none, none, [⟨"Available", "True", 100, 100, "RegistryHealthy", "up"⟩], 0⟩
    ⟨"Available", "False", 0, 0, "ConfigMapNotFound", "gone"⟩
    ⟨"Available", "True", 100, 100, "RegistryHealthy", "up"⟩ [] [] rfl (by decide) rfl
    (by decide) (by decide)

/-! ## Endpoint resolution -/

/-- C6, evaluated on the code: for a source with both Image and Address set and a
registry service recorded in its status, `CatalogSource.Address` returns the explicit
`Spec.Address`, not the endpoint derived from the registry service status, although the
field comments say the address is ignored when the image is set. -/
theorem Address_image_and_address_returns_explicit :
    CatalogSource.Address
        { Spec :=
            { SourceType := "grpc", ConfigMap := "", Address := "registry.example.com:50051",
              Image := "quay.io/example/catalog:latest", Secrets := [], DisplayName := "",
              Description := "", Publisher := "" },
          Status :=
            { ConfigMapResource := none,
              RegistryServiceStatus := some ⟨"grpc", "catalog", "olm", "50051", 0⟩,
              Conditions := [], LastSync := 0 } } =
        Except.ok "registry.example.com:50051" ∧
      RegistryServiceStatus.AddressOfPtr (some ⟨"grpc", "catalog", "olm", "50051", 0⟩) =
        Except.ok "catalog.olm.svc.cluster.local:50051" ∧
      CatalogSource.Address
        { Spec :=
            { SourceType := "grpc", ConfigMap := "", Address := "registry.example.com:50051",
              Image := "quay.io/example/catalog:latest", Secrets := [], DisplayName := "",
              Description := "", Publisher := "" },
          Status :=
            { ConfigMapResource := none,
              RegistryServiceStatus := some ⟨"grpc", "catalog", "olm", "50051", 0⟩,
              Conditions := [], LastSync := 0 } } ≠
        RegistryServiceStatus.AddressOfPtr (some ⟨"grpc", "catalog", "olm", "50051", 0⟩) := by
  refine ⟨rfl, rfl, ?_⟩
  intro h
  have hstr : "registry.example.com:50051" = "catalog.olm.svc.cluster.local:50051" :=
    Except.ok.inj h
  exact absurd hstr (by decide)

/-- C7: with a non-empty `Spec.Address` and an empty `Spec.Image`, `CatalogSource.Address`
returns `Spec.Address` unchanged and without failing, whatever the status holds (an absent
registry service status included). -/
theorem Address_explicit_verbatim (c : CatalogSource) (ha : c.Spec.Address ≠ "")
    (_hi : c.Spec.Image = "") : c.Address = Except.ok c.Spec.Address := by
  simp [CatalogSource.Address, ha]

theorem Address_explicit_verbatim_witness :
    CatalogSource.Address
        { Spec :=
            { SourceType := "grpc", ConfigMap := "", Address := "10.0.0.7:50051",
              Image := "", Secrets := [], DisplayName := "", Description := "",
              Publisher := "" },
          Status :=
            { ConfigMapResource := none, RegistryServiceStatus := none,
              Conditions := [], LastSync := 0 } } =
      Except.ok "10.0.0.7:50051" :=
  Address_explicit_verbatim
    { Spec :=
        { SourceType := "grpc", ConfigMap := "", Address := "10.0.0.7:50051",
          Image := "", Secrets := [], DisplayName := "", Description := "",
          Publisher := "" },
      Status :=
        { ConfigMapResource := none, RegistryServiceStatus := none,
          Conditions := [], LastSync := 0 } }
    (by decide) rfl

/-- C8: `RegistryServiceStatus.Address` is the concatenation
ServiceName, ".", ServiceNamespace, ".svc.cluster.local:", Port (also when called through
a non-nil pointer), and changing Protocol and CreatedAt does not change it. -/
theorem RegistryServiceStatus_Address_format (s : RegistryServiceStatus) :
    s.Address = s.ServiceName ++ "." ++ s.ServiceNamespace ++ ".svc.cluster.local:" ++ s.Port ∧
      RegistryServiceStatus.AddressOfPtr (some s) =
        Except.ok
          (s.ServiceName ++ "." ++ s.ServiceNamespace ++ ".svc.cluster.local:" ++ s.Port) ∧
      ∀ (protocol : String) (createdAt : Time),
        RegistryServiceStatus.Address
            { s with Protocol := protocol, CreatedAt := createdAt } = s.Address :=
  ⟨rfl, rfl, fun _ _ => rfl⟩

/-- C9: with an empty `Spec.Address` and a registry service status present,
`CatalogSource.Address` is `RegistryServiceStatus.Address` of that status. -/
theorem Address_from_registry_service (c : CatalogSource) (r : RegistryServiceStatus)
    (ha : c.Spec.Address = "") (hr : c.Status.RegistryServiceStatus = some r) :
    c.Address = Except.ok r.Address ∧
      c.Address = RegistryServiceStatus.AddressOfPtr c.Status.RegistryServiceStatus := by
  simp [CatalogSource.Address, ha, hr, RegistryServiceStatus.AddressOfPtr]

theorem Address_from_registry_service_witness :
    CatalogSource.Address
        { Spec :=
            { SourceType := "configmap", ConfigMap := "catalog-cm", Address := "",
              Image := "", Secrets := [], DisplayName := "", Description := "",
              Publisher := "" },
          Status :=
            { ConfigMapResource := none,
              RegistryServiceStatus := some ⟨"grpc", "catalog", "olm", "50051", 0⟩,
              Conditions := [], LastSync := 0 } } =
        Except.ok (RegistryServiceStatus.Address ⟨"grpc", "catalog", "olm", "50051", 0⟩) ∧
      CatalogSource.Address
        { Spec :=
            { SourceType := "configmap", ConfigMap := "catalog-cm", Address := "",
              Image := "", Secrets := [], DisplayName := "", Description := "",
              Publisher := "" },
          Status :=
            { ConfigMapResource := none,
              RegistryServiceStatus := some ⟨"grpc", "catalog", "olm", "50051", 0⟩,
              Conditions := [], LastSync := 0 } } =
        RegistryServiceStatus.AddressOfPtr (some ⟨"grpc", "catalog", "olm", "50051", 0⟩) :=
  Address_from_registry_service _ ⟨"grpc", "catalog", "olm", "50051", 0⟩ rfl rfl

/-! ## Condition constructors -/

/-- C10: on a non-nil error, `CatalogSourceConditionFailed` returns the condition with the
given Type, Status False, the given Reason and the error text as Message;
`CatalogSourceConditionMet` returns the condition with the given Type, Status True and
empty Reason and Message; both leave the two timestamps at the zero value. -/
theorem condition_constructors (t : CatalogSourceConditionType)
    (reason : CatalogSourceConditionReason) (msg : String) :
    CatalogSourceConditionFailed t reason (some msg) =
        Except.ok
          { Type_ := t, Status := "False", LastUpdateTime := zeroTime,
            LastTransitionTime := zeroTime, Reason := reason, Message := msg } ∧
      CatalogSourceConditionMet t =
        { Type_ := t, Status := "True", LastUpdateTime := zeroTime,
          LastTransitionTime := zeroTime, Reason := "", Message := "" } :=
  ⟨rfl, rfl⟩

/-! ## Subscription approval -/

/-- C11: for a Subscription with a non-nil spec, with Manual and Automatic two different
constants, GetInstallPlanApproval returns Manual if and only if the spec's
InstallPlanApproval equals Manual, returns Automatic for every other value (the empty
string, Automatic and any other string), and its result is always one of the two. -/
theorem GetInstallPlanApproval_manual_or_default (manual automatic : Approval)
    (s : Subscription) (spec : SubscriptionSpec) (hspec : s.Spec = some spec)
    (hmodes : manual ≠ automatic) :
    (s.GetInstallPlanApproval manual automatic = Except.ok manual ↔
        spec.InstallPlanApproval = manual) ∧
      (s.GetInstallPlanApproval manual automatic = Except.ok automatic ↔
        spec.InstallPlanApproval ≠ manual) ∧
      (s.GetInstallPlanApproval manual automatic = Except.ok manual ∨
        s.GetInstallPlanApproval manual automatic = Except.ok automatic) := by
  unfold Subscription.GetInstallPlanApproval
  rw [hspec]
  by_cases h : spec.InstallPlanApproval = manual
  · simp [h, hmodes]
  · simp [h, hmodes.symm]

theorem GetInstallPlanApproval_manual_or_default_witness :
    (Subscription.GetInstallPlanApproval "Manual" "Automatic"
          ⟨some ⟨"catalog", "etcd", "alpha", "", "manual"⟩, ⟨"", none, "", 0⟩⟩ =
          Except.ok "Manual" ↔
        (⟨"catalog", "etcd", "alpha", "", "manual"⟩ : SubscriptionSpec).InstallPlanApproval =
          "Manual") ∧
      (Subscription.GetInstallPlanApproval "Manual" "Automatic"
          ⟨some ⟨"catalog", "etcd", "alpha", "", "manual"⟩, ⟨"", none, "", 0⟩⟩ =
          Except.ok "Automatic" ↔
        (⟨"catalog", "etcd", "alpha", "", "manual"⟩ : SubscriptionSpec).InstallPlanApproval ≠
          "Manual") ∧
      (Subscription.GetInstallPlanApproval "Manual" "Automatic"
          ⟨some ⟨"catalog", "etcd", "alpha", "", "manual"⟩, ⟨"", none, "", 0⟩⟩ =
          Except.ok "Manual" ∨
        Subscription.GetInstallPlanApproval "Manual" "Automatic"
          ⟨some ⟨"catalog", "etcd", "alpha", "", "manual"⟩, ⟨"", none, "", 0⟩⟩ =
          Except.ok "Automatic") :=
  GetInstallPlanApproval_manual_or_default "Manual" "Automatic"
    ⟨some ⟨"catalog", "etcd", "alpha", "", "manual"⟩, ⟨"", none, "", 0⟩⟩
    ⟨"catalog", "etcd", "alpha", "", "manual"⟩ rfl (by decide)

/-! ## Frame and merge-key invariant of SetCondition -/

/-- C12: SetCondition changes nothing but the one entry it sets. Every entry whose Type
differs from the new condition's Type keeps its value and its index; the list grows by
one when no entry had the Type and keeps its length otherwise; the config-map reference,
the registry service status and the last-sync time of the status are unchanged. -/
theorem SetCondition_frame (now : Time) (s : CatalogSourceStatus)
    (cond : CatalogSourceCondition) :
    (∀ (i : Nat) (e : CatalogSourceCondition), s.Conditions[i]? = some e →
        e.Type_ ≠ cond.Type_ → (s.SetCondition now cond).1.Conditions[i]? = some e) ∧
      ((∀ x ∈ s.Conditions, x.Type_ ≠ cond.Type_) →
        (s.SetCondition now cond).1.Conditions.length = s.Conditions.length + 1) ∧
      ((∃ x ∈ s.Conditions, x.Type_ = cond.Type_) →
        (s.SetCondition now cond).1.Conditions.length = s.Conditions.length) ∧
      (s.SetCondition now cond).1.ConfigMapResource = s.ConfigMapResource ∧
      (s.SetCondition now cond).1.RegistryServiceStatus = s.RegistryServiceStatus ∧
      (s.SetCondition now cond).1.LastSync = s.LastSync := by
  rcases first_entry_or_absent cond.Type_ s.Conditions with
    hall | ⟨pre, e0, post, hs, hpre, he0⟩
  · rw [SetCondition_of_absent now s cond hall]
    refine ⟨?_, ?_, ?_, rfl, rfl, rfl⟩
    · intro i e hget _
      have hlt : i < s.Conditions.length := (List.getElem?_eq_some.mp hget).1
      show (s.Conditions ++ [stamped now now cond])[i]? = some e
      rw [List.getElem?_append_left hlt]
      exact hget
    · intro _
      simp
    · rintro ⟨x, hx, hxt⟩
      exact absurd hxt (hall x hx)
  · rw [SetCondition_of_first now s cond e0 pre post hs hpre he0]
    refine ⟨?_, ?_, ?_, rfl, rfl, rfl⟩
    · intro i e hget hne
      have hi : i ≠ pre.length := by
        intro hi
        rw [hs, hi, getElem?_first_entry] at hget
        exact hne ((Option.some.inj hget) ▸ he0)
      show (pre ++ _ :: post)[i]? = some e
      rw [getElem?_replace_elsewhere pre post e0 _ i hi, ← hs]
      exact hget
    · intro hall
      exact absurd he0 (hall e0 (by simp [hs]))
    · intro _
      simp [hs]

theorem SetCondition_frame_witness :
    (CatalogSourceStatus.SetCondition 200
        ⟨none, some ⟨"grpc", "catalog", "olm", "50051", 0⟩,
          [⟨"Synced", "True", 10, 10, "", ""⟩,
           ⟨"Available", "True", 50, 40, "RegistryHealthy", "up"⟩], 77⟩
        ⟨"Available", "False", 0, 0, "ConfigMapNotFound", "gone"⟩).1.Conditions[0]? =
      some ⟨"Synced", "True", 10, 10, "", ""⟩ :=
  (SetCondition_frame 200
    ⟨none, some ⟨"grpc", "catalog", "olm", "50051", 0⟩,
      [⟨"Synced", "True", 10, 10, "", ""⟩,
       ⟨"Available", "True", 50, 40, "RegistryHealthy", "up"⟩], 77⟩
    ⟨"Available", "False", 0, 0, "ConfigMapNotFound", "gone"⟩).1 0
    ⟨"Synced", "True", 10, 10, "", ""⟩ rfl (by decide)

/-- C14: Type is a merge key that SetCondition keeps unique. If no two entries of the
list have the same Type, then after SetCondition with `cond` again no two entries have
the same Type and exactly one entry has the Type of `cond`; and every list built from the
empty list by SetCondition calls alone has pairwise distinct Types. -/
theorem SetCondition_unique_types (now : Time) (s : CatalogSourceStatus)
    (cond : CatalogSourceCondition) :
    ((conditionTypes s.Conditions).Nodup →
        (conditionTypes (s.SetCondition now cond).1.Conditions).Nodup ∧
          (conditionTypes (s.SetCondition now cond).1.Conditions).count cond.Type_ = 1) ∧
      ∀ calls : List (Time × CatalogSourceCondition),
        (conditionTypes (applyConditions { s with Conditions := [] } calls).Conditions).Nodup := by
  constructor
  · intro h
    have hnodup := SetCondition_nodup_types now s cond h
    exact ⟨hnodup, List.count_eq_one_of_mem hnodup (SetCondition_mem_types now s cond)⟩
  · intro calls
    exact applyConditions_nodup_types calls _ List.nodup_nil

theorem SetCondition_unique_types_witness :
    (conditionTypes (CatalogSourceStatus.SetCondition 200
        ⟨none, none,
          [⟨"Synced", "True", 10, 10, "", ""⟩,
           ⟨"Available", "True", 50, 40, "RegistryHealthy", "up"⟩], 0⟩
        ⟨"Available", "False", 0, 0, "ConfigMapNotFound", "gone"⟩).1.Conditions).Nodup ∧
      (conditionTypes (CatalogSourceStatus.SetCondition 200
        ⟨none, none,
          [⟨"Synced", "True", 10, 10, "", ""⟩,
           ⟨"Available", "True", 50, 40, "RegistryHealthy", "up"⟩], 0⟩
        ⟨"Available", "False", 0, 0, "ConfigMapNotFound", "gone"⟩).1.Conditions).count
          "Available" = 1 :=
  (SetCondition_unique_types 200
    ⟨none, none,
      [⟨"Synced", "True", 10, 10, "", ""⟩,
       ⟨"Available", "True", 50, 40, "RegistryHealthy", "up"⟩], 0⟩
    ⟨"Available", "False", 0, 0, "ConfigMapNotFound", "gone"⟩).1 (by decide)

/-! ## Catalog sync after a config-map update -/

/-- C15: `CatalogSource.Address` returns an endpoint exactly when `Spec.Address` is
non-empty or the registry service status is present; it fails with a nil dereference
exactly when `Spec.Address` is empty and the registry service status is absent. -/
theorem Address_succeeds_iff (c : CatalogSource) :
    ((∃ endpoint, c.Address = Except.ok endpoint) ↔
        (c.Spec.Address ≠ "" ∨ c.Status.RegistryServiceStatus ≠ none)) ∧
      (c.Address = Except.error GoPanic.nilDereference ↔
        (c.Spec.Address = "" ∧ c.Status.RegistryServiceStatus = none)) := by
  unfold CatalogSource.Address
  by_cases ha : c.Spec.Address = ""
  · cases hr : c.Status.RegistryServiceStatus with
    | none => simp [ha, RegistryServiceStatus.AddressOfPtr]
    | some r => simp [ha, RegistryServiceStatus.AddressOfPtr]
  · simp [ha]

end OLM
